import Mathlib

/-!
Verification development for the credit-ledger and job-orchestration core of
the ai-cine-director repository.

The repository contains two generations of the core files:
* `src/context/AppContext.tsx` (state-based deduct, auto-topup in fetchProfile)
  and `src/components/VideoGenerator.tsx` (poller with hard timeout), and
* `src/unnamed/part_002` (ref-based atomic deduct, no auto-topup) and
  `src/unnamed/part_000` (orchestrator with cost multipliers, poller without
  timeout).

Each definition below is a shallow embedding of one concrete function of one
of these files; the doc comment names the file and lines it is translated
from.  External calls (Supabase RPC, Replicate submissions, image generation)
are modelled by explicit outcome parameters; JS numbers holding credit counts
are modelled as `Int`, the priority multiplier as `Rat`.
-/

/-- Mutable credit state of the `AppProvider` in `src/unnamed/part_002`:
`balanceRef.current` (the synchronous source of truth for deductions) and the
`isAdmin` flag of `userState`.  The `monthlyUsage` bookkeeping and the other
`userState` fields are orthogonal to every claim and are elided. -/
structure CreditState where
  isAdmin : Bool
  balanceRef : Int
  deriving Repr, DecidableEq

/-- Outcome of the primary remote synchronization call
`supabase.rpc('deduct_credits', ...)` as observed by the caller:
it resolves without error, resolves with an `error` value, or throws. -/
inductive RpcOutcome where
  | resolvedOk
  | errorResult
  | thrown
  deriving Repr, DecidableEq

/-- Result of one `deductCredits` call of `src/unnamed/part_002` lines
166-215: the returned boolean, the credit state after the call, whether the
remote RPC was attempted (`session?.user` truthy), and the value written by
the direct-overwrite fallback when it runs (`credits: balanceRef.current`). -/
structure DeductResult where
  ret : Bool
  state : CreditState
  rpcAttempted : Bool
  fallbackWrite : Option Int
  deriving Repr, DecidableEq

/-- Shallow embedding of `deductCredits` from `src/unnamed/part_002` lines
166-215.  Admin callers return true with no mutation; a balance below the
requested amount returns false with no mutation; otherwise `balanceRef` is
decremented synchronously before any network work, the RPC is attempted when
a session exists, and on an RPC error result a direct overwrite of the remote
balance with the already-decremented `balanceRef.current` is attempted; a
thrown RPC is caught and logged.  The call returns true on every one of those
remote outcomes. -/
def deductCredits (s : CreditState) (amount : Int) (hasSession : Bool)
    (rpc : RpcOutcome) : DeductResult :=
  if s.isAdmin then ⟨true, s, false, none⟩
  else if s.balanceRef < amount then ⟨false, s, false, none⟩
  else
    let s' : CreditState := { s with balanceRef := s.balanceRef - amount }
    if hasSession then
      match rpc with
      | RpcOutcome.resolvedOk => ⟨true, s', true, none⟩
      | RpcOutcome.errorResult => ⟨true, s', true, some s'.balanceRef⟩
      | RpcOutcome.thrown => ⟨true, s', true, none⟩
    else ⟨true, s', false, none⟩

/-- Runs a back-to-back sequence of `deductCredits` calls, threading the
credit state; the session/RPC outcome of the i-th call is drawn from the
oracle `o`.  Returns the list of returned booleans and the final state. -/
def runDeductions (o : Nat → Bool × RpcOutcome) (k : Nat) (s : CreditState) :
    List Int → List Bool × CreditState
  | [] => ([], s)
  | a :: rest =>
      let r := deductCredits s a (o k).1 (o k).2
      let p := runDeductions o (k + 1) r.state rest
      (r.ret :: p.1, p.2)

/-- Sum of the amounts of the calls that returned true. -/
def successSum : List Int → List Bool → Int
  | a :: as, b :: bs => (if b then a else 0) + successSum as bs
  | _, _ => 0

/-- Shallow embedding of the SQL function `deduct_credits` from
`src/supabase/rpc.sql` lines 2-24, acting on the caller's `credits` row
value: if `credits >= amount_to_deduct` the row is decremented and the
function returns true, otherwise it returns false without mutation. -/
def deduct_credits (credits : Int) (amount_to_deduct : Int) : Bool × Int :=
  if credits ≥ amount_to_deduct then (true, credits - amount_to_deduct)
  else (false, credits)

/-- Shallow embedding of the balance initialization inside `fetchProfile` of
`src/context/AppContext.tsx` lines 129-147 (the context variant with
auto-topup): given the fetched `data.credits`, returns the locally
initialized balance and the value of the fire-and-forget remote credits
overwrite, when one is issued. -/
def fetchProfile (credits : Int) : Int × Option Int :=
  if credits < 5 then (50, some 50) else (credits, none)

/-! Poller: shallow embedding of the `pollJobs` sweep of
`src/components/VideoGenerator.tsx` lines 73-131. -/

/-- Remote prediction status as returned by `checkPredictionStatus`
(`ReplicateResponse.status` in `src/unnamed/part_003`). -/
inductive RemoteState where
  | starting
  | processing
  | succeeded
  | failed
  | canceled
  deriving Repr, DecidableEq

/-- Payload of one `checkPredictionStatus` answer. -/
structure RemoteResponse where
  status : RemoteState
  output : Option String
  error : Option String
  deriving Repr, DecidableEq

/-- Entry of the `activeVideoJobs` registry (`JobInfo` in
`src/components/VideoGenerator.tsx`): external job id and registration
time in milliseconds. -/
structure JobInfo where
  id : String
  startTime : Nat
  deriving Repr, DecidableEq

/-- Hard timeout ceiling, `HARD_TIMEOUT_MS = 10 * 60 * 1000` of
`src/components/VideoGenerator.tsx` line 11. -/
def HARD_TIMEOUT_MS : Nat := 10 * 60 * 1000

/-- Local scene render lifecycle state, the `RenderStatus` union of
`src/components/VideoGenerator.tsx` line 14. -/
inductive RenderStatus where
  | idle
  | queued
  | starting
  | processing
  | done
  | failed
  | timed_out
  deriving Repr, DecidableEq

/-- Effect of one sweep on one outstanding job: whether the job is removed
from `activeVideoJobs`, the status written to `sceneStatus` (if any), and the
URL written to `sceneVideoUrls` (if any). -/
structure JobUpdate where
  removed : Bool
  newStatus : Option RenderStatus
  urlUpdate : Option String
  deriving Repr, DecidableEq

/-- Per-job body of the `pollJobs` sweep, `src/components/VideoGenerator.tsx`
lines 82-122.  `remote` is the outcome of `checkPredictionStatus job.id`
(`none` models a thrown/failed poll, caught at lines 119-121).  The timeout
check runs before the remote query; remote `succeeded` without an output
resolves to `failed`; remote `failed` maps 1:1; every other remote status
leaves the job outstanding with local status `processing`. -/
def pollJobStep (now : Nat) (job : JobInfo) (remote : Option RemoteResponse) :
    JobUpdate :=
  if now - job.startTime > HARD_TIMEOUT_MS then
    ⟨true, some RenderStatus.timed_out, none⟩
  else
    match remote with
    | none => ⟨false, none, none⟩
    | some res =>
        match res.status with
        | RemoteState.succeeded =>
            match res.output with
            | some url => ⟨true, some RenderStatus.done, some url⟩
            | none => ⟨true, some RenderStatus.failed, none⟩
        | RemoteState.failed => ⟨true, some RenderStatus.failed, none⟩
        | _ => ⟨false, some RenderStatus.processing, none⟩

/-- One whole `pollJobs` sweep over the outstanding set: returns the new
`activeVideoJobs` registry, the `sceneStatus` updates and the
`sceneVideoUrls` updates, each keyed by scene number. -/
def pollJobs (now : Nat) (jobs : List (Nat × JobInfo))
    (remote : String → Option RemoteResponse) :
    List (Nat × JobInfo) × List (Nat × RenderStatus) × List (Nat × String) :=
  (jobs.filter (fun p => (pollJobStep now p.2 (remote p.2.id)).removed = false),
   jobs.filterMap (fun p => (pollJobStep now p.2 (remote p.2.id)).newStatus.map (fun st => (p.1, st))),
   jobs.filterMap (fun p => (pollJobStep now p.2 (remote p.2.id)).urlUpdate.map (fun u => (p.1, u))))

/-! Render orchestrator: shallow embedding of the handlers of
`src/unnamed/part_000` (the `VideoGenerator` variant with
`MODEL_MULTIPLIERS`), which runs against the ref-based `AppContext` of
`src/unnamed/part_002`. -/

/-- Video model union of `src/types.ts`. -/
inductive VideoModel where
  | wan_2_5
  | hailuo_02
  | veo_3_1
  | pixverse_v5
  | seedance_1_5_pro
  | sora_2_pro
  deriving Repr, DecidableEq

/-- Per-model credit cost table `MODEL_COSTS` of `src/types.ts`
lines 137-145 (the `DEFAULT` key is unused by the handlers modelled here). -/
def MODEL_COSTS : VideoModel → Int
  | VideoModel.wan_2_5 => 38
  | VideoModel.hailuo_02 => 75
  | VideoModel.veo_3_1 => 180
  | VideoModel.pixverse_v5 => 45
  | VideoModel.seedance_1_5_pro => 30
  | VideoModel.sora_2_pro => 75

/-- JavaScript `x || d` on an optional number: the default replaces both a
missing entry and a zero (falsy) entry. -/
def jsOrInt (v : Option Int) (d : Int) : Int :=
  match v with
  | some x => if x = 0 then d else x
  | none => d

/-- JavaScript `x || d` for the rational multiplier. -/
def jsOrRat (v : Option Rat) (d : Rat) : Rat :=
  match v with
  | some x => if x = 0 then d else x
  | none => d

/-- Video cost computation of `src/unnamed/part_000` lines 183-185 and
226-228: `Math.ceil((MODEL_COSTS[m] || 28) * (MODEL_MULTIPLIERS[m] || 1.0))`.
The `MODEL_MULTIPLIERS` table is imported by `part_000` from `../types` but
its defining file is not in the sources, so the handlers are parameterized
over the table (`mults`), as they are over the cost table (`costs`). -/
def videoCost (costs : VideoModel → Option Int) (mults : VideoModel → Option Rat)
    (m : VideoModel) : Int :=
  Int.ceil ((jsOrInt (costs m) 28 : Rat) * jsOrRat (mults m) 1)

/-- Image generation cost selection of `src/unnamed/part_000` lines 94 and
140: `CREDIT_COSTS.IMAGE_FLUX_SCHNELL = 1` for the `flux_schnell` image
model, otherwise `CREDIT_COSTS.IMAGE_FLUX = 6` (`src/types.ts` lines
190-197). -/
def imageCost (imageModel : String) : Int :=
  if imageModel = "flux_schnell" then 1 else 6

/-- Functional update of a `Record<number, α>` keyed list: replaces the entry
with the given key or appends a new one; a key never occurs twice. -/
def setEntry {α : Type} : List (Nat × α) → Nat → α → List (Nat × α)
  | [], k, v => [(k, v)]
  | (k', v') :: rest, k, v =>
      if k' = k then (k, v) :: rest else (k', v') :: setEntry rest k v

/-- Combined state of the `VideoGenerator` component of
`src/unnamed/part_000` and the credit context of `src/unnamed/part_002`
during one handler run.  `staleBalance` is `userState.balance` as captured by
the handler's closure (frozen for the whole run); `currentBalance` is the
handler-local `currentBalance` tracker; `balanceRef` is the context's
`balanceRef.current`.  `deductions` logs the amounts passed to the
fire-and-forget `deductCredits` calls, `genCalls` the scenes for which
`generateImage` was invoked, and `videoTaskCalls` the scenes for which
`startVideoTask` was invoked. -/
structure OrchState where
  isAdmin : Bool
  balanceRef : Int
  staleBalance : Int
  currentBalance : Int
  sceneImages : List (Nat × String)
  activeVideoJobs : List (Nat × JobInfo)
  sceneStatus : List (Nat × String)
  pricingOpened : Bool
  deductions : List Int
  genCalls : List Nat
  videoTaskCalls : List Nat
  deriving Repr, DecidableEq

/-- Synchronous local effect of a fire-and-forget `deductCredits` call of
`src/unnamed/part_002` as issued by the orchestrator: the requested amount is
logged, and `balanceRef` is decremented unless the caller is admin or
`balanceRef` is below the amount. -/
def applyDeductLocal (s : OrchState) (amount : Int) : OrchState :=
  let s1 := { s with deductions := s.deductions ++ [amount] }
  if s1.isAdmin = true then s1
  else if s1.balanceRef < amount then s1
  else { s1 with balanceRef := s1.balanceRef - amount }

/-- Shallow embedding of `executeImageGeneration`, `src/unnamed/part_000`
lines 93-120.  `gen` is the `generateImage` outcome (`none` models a thrown
call).  Returns the produced URL (`none` when the function throws) and the
new state.  The affordability pre-check reads the stale `userState.balance`;
on insufficient balance the pricing modal is opened and the function
throws. -/
def executeImageGeneration (cost : Int) (sNum : Nat) (gen : Option String)
    (s : OrchState) : Option String × OrchState :=
  if s.isAdmin = false ∧ s.staleBalance < cost then
    (none, { s with pricingOpened := true })
  else
    let s1 := { s with sceneStatus := setEntry s.sceneStatus sNum "image_gen",
                       genCalls := s.genCalls ++ [sNum] }
    match gen with
    | some url =>
        let s2 := applyDeductLocal s1 cost
        (some url, { s2 with sceneImages := setEntry s2.sceneImages sNum url,
                             sceneStatus := setEntry s2.sceneStatus sNum "ready" })
    | none => (none, { s1 with sceneStatus := setEntry s1.sceneStatus sNum "failed" })

/-- Loop with `break`: folds the step over the scene list and stops early
when the step reports a break. -/
def foldBreak (step : OrchState → Nat → OrchState × Bool) :
    List Nat → OrchState → OrchState
  | [], s => s
  | x :: xs, s =>
      let r := step s x
      if r.2 = true then r.1 else foldBreak step xs r.1

/-- Loop body of `handleRenderImages`, `src/unnamed/part_000` lines 132-154:
scenes that already have an image are skipped; on `currentBalance` below the
image cost the pricing modal is opened and the loop breaks; otherwise
`executeImageGeneration` runs and a thrown call is caught and the loop
continues. -/
def renderImagesStep (cost : Int) (gen : Nat → Option String) (s : OrchState)
    (sNum : Nat) : OrchState × Bool :=
  if (List.lookup sNum s.sceneImages).isSome then (s, false)
  else if s.isAdmin = false ∧ s.currentBalance < cost then
    ({ s with pricingOpened := true }, true)
  else
    let r := executeImageGeneration cost sNum (gen sNum) s
    match r.1 with
    | some _ => ({ r.2 with currentBalance := r.2.currentBalance - cost }, false)
    | none => (r.2, false)

/-- Shallow embedding of `handleRenderImages`, `src/unnamed/part_000` lines
122-156: initializes the local `currentBalance` tracker from the stale
`userState.balance` and folds the per-scene step, honouring its break. -/
def handleRenderImages (cost : Int) (gen : Nat → Option String)
    (scenes : List Nat) (s0 : OrchState) : OrchState :=
  foldBreak (renderImagesStep cost gen) scenes
    { s0 with currentBalance := s0.staleBalance }

/-- Video submission phase shared by the `handleRenderVideos` loop body,
`src/unnamed/part_000` lines 183-215: computes the final cost, breaks with
the pricing modal when `currentBalance` cannot afford it, otherwise invokes
`startVideoTask` (outcome `task`), and on success deducts, registers the job
and marks the scene `starting`; a thrown submission marks the scene
`failed`. -/
def submitVideoPhase (costs : VideoModel → Option Int)
    (mults : VideoModel → Option Rat) (m : VideoModel) (task : Option String)
    (now : Nat) (sNum : Nat) (s : OrchState) : OrchState × Bool :=
  let finalCost := videoCost costs mults m
  if s.isAdmin = false ∧ s.currentBalance < finalCost then
    ({ s with pricingOpened := true }, true)
  else
    let s1 := { s with videoTaskCalls := s.videoTaskCalls ++ [sNum] }
    match task with
    | some id =>
        let s2 := applyDeductLocal s1 finalCost
        ({ s2 with currentBalance := s2.currentBalance - finalCost,
                   activeVideoJobs := setEntry s2.activeVideoJobs sNum ⟨id, now⟩,
                   sceneStatus := setEntry s2.sceneStatus sNum "starting" }, false)
    | none => ({ s1 with sceneStatus := setEntry s1.sceneStatus sNum "failed" }, false)

/-- Loop body of `handleRenderVideos`, `src/unnamed/part_000` lines 163-216:
a scene with an outstanding job or a done status is skipped untouched; a
missing image is synthesized first (affordability break, thrown generation
caught and the scene skipped); then the video submission phase runs. -/
def renderVideosStep (imgCost : Int) (costs : VideoModel → Option Int)
    (mults : VideoModel → Option Rat) (m : VideoModel)
    (gen : Nat → Option String) (task : Nat → Option String) (now : Nat)
    (s : OrchState) (sNum : Nat) : OrchState × Bool :=
  if (List.lookup sNum s.activeVideoJobs).isSome ∨
      List.lookup sNum s.sceneStatus = some "done" then (s, false)
  else
    match List.lookup sNum s.sceneImages with
    | some _ => submitVideoPhase costs mults m (task sNum) now sNum s
    | none =>
        if s.isAdmin = false ∧ s.currentBalance < imgCost then
          ({ s with pricingOpened := true }, true)
        else
          let r := executeImageGeneration imgCost sNum (gen sNum) s
          match r.1 with
          | none => (r.2, false)
          | some _ =>
              submitVideoPhase costs mults m (task sNum) now sNum
                { r.2 with currentBalance := r.2.currentBalance - imgCost }

/-- Shallow embedding of `handleRenderVideos`, `src/unnamed/part_000` lines
158-217. -/
def handleRenderVideos (imgCost : Int) (costs : VideoModel → Option Int)
    (mults : VideoModel → Option Rat) (m : VideoModel)
    (gen : Nat → Option String) (task : Nat → Option String) (now : Nat)
    (scenes : List Nat) (s0 : OrchState) : OrchState :=
  foldBreak (renderVideosStep imgCost costs mults m gen task now) scenes
    { s0 with currentBalance := s0.staleBalance }

/-- Shallow embedding of `handleGenerateSingleVideo`, `src/unnamed/part_000`
lines 219-257: requires the scene to exist and to have an image, checks the
stale `userState.balance` against the final cost (opening the pricing modal
on failure), then submits without consulting `activeVideoJobs`; a successful
submission deducts, overwrites the scene's registry entry and marks it
`starting`. -/
def handleGenerateSingleVideo (costs : VideoModel → Option Int)
    (mults : VideoModel → Option Rat) (m : VideoModel) (task : Option String)
    (now : Nat) (scenes : List Nat) (s : OrchState) (sNum : Nat) : OrchState :=
  if sNum ∈ scenes then
    match List.lookup sNum s.sceneImages with
    | none => s
    | some _ =>
        let finalCost := videoCost costs mults m
        if s.isAdmin = false ∧ s.staleBalance < finalCost then
          { s with pricingOpened := true }
        else
          let s1 := { s with sceneStatus := setEntry s.sceneStatus sNum "queued",
                             videoTaskCalls := s.videoTaskCalls ++ [sNum] }
          match task with
          | some id =>
              let s2 := applyDeductLocal s1 finalCost
              { s2 with activeVideoJobs := setEntry s2.activeVideoJobs sNum ⟨id, now⟩,
                        sceneStatus := setEntry s2.sceneStatus sNum "starting" }
          | none => { s1 with sceneStatus := setEntry s1.sceneStatus sNum "failed" }
  else s

/-- Concrete orchestrator state for the duplicate-submission scenario:
scene 5 has a resolved image and an outstanding job. -/
def dupJobState : OrchState :=
  { isAdmin := false, balanceRef := 100, staleBalance := 100,
    currentBalance := 100, sceneImages := [(5, "img-5")],
    activeVideoJobs := [(5, ⟨"old-id", 0⟩)], sceneStatus := [(5, "starting")],
    pricingOpened := false, deductions := [], genCalls := [],
    videoTaskCalls := [] }

/-- Concrete orchestrator state for the batch partial-progress scenario:
no images yet, balance 10 in every balance slot. -/
def lowBalanceState : OrchState :=
  { isAdmin := false, balanceRef := 10, staleBalance := 10,
    currentBalance := 10, sceneImages := [], activeVideoJobs := [],
    sceneStatus := [], pricingOpened := false, deductions := [],
    genCalls := [], videoTaskCalls := [] }

/-- Concrete orchestrator state for the single-scene video cost scenario:
scene 1 has a resolved image, no outstanding jobs, balance 100. -/
def singleVideoState : OrchState :=
  { isAdmin := false, balanceRef := 100, staleBalance := 100,
    currentBalance := 100, sceneImages := [(1, "img-1")],
    activeVideoJobs := [], sceneStatus := [], pricingOpened := false,
    deductions := [], genCalls := [], videoTaskCalls := [] }

-- Basic facts about a single deduction, shared by several claim proofs.

theorem deductCredits_ret_state_indep (s : CreditState) (amount : Int)
    (h : Bool) (r : RpcOutcome) :
    (deductCredits s amount h r).ret = (deductCredits s amount true RpcOutcome.resolvedOk).ret ∧
    (deductCredits s amount h r).state = (deductCredits s amount true RpcOutcome.resolvedOk).state := by
  unfold deductCredits
  cases h <;> cases r <;> split <;> simp_all <;> split <;> simp_all

theorem deductCredits_state_balance (s : CreditState) (amount : Int)
    (h : Bool) (r : RpcOutcome) (hadm : s.isAdmin = false) :
    (deductCredits s amount h r).state.balanceRef =
      (if s.balanceRef < amount then s.balanceRef else s.balanceRef - amount) ∧
    (deductCredits s amount h r).ret = decide (¬ s.balanceRef < amount) ∧
    (deductCredits s amount h r).state.isAdmin = false := by
  unfold deductCredits
  cases h <;> cases r <;> simp [hadm] <;> split <;> simp_all

/-- Main invariant behind the no-overspend claim: for a non-admin caller the
sum of the successful amounts equals the drop of `balanceRef`, and a
non-negative balance stays non-negative. -/
theorem runDeductions_invariant (amounts : List Int) :
    ∀ (o : Nat → Bool × RpcOutcome) (k : Nat) (s : CreditState),
    s.isAdmin = false →
    successSum amounts (runDeductions o k s amounts).1 =
      s.balanceRef - (runDeductions o k s amounts).2.balanceRef ∧
    (0 ≤ s.balanceRef → 0 ≤ (runDeductions o k s amounts).2.balanceRef) := by
  induction amounts with
  | nil => intro o k s hadm; simp [runDeductions, successSum]
  | cons a rest ih =>
      intro o k s hadm
      obtain ⟨hbal, hret, hadm'⟩ :=
        deductCredits_state_balance s a (o k).1 (o k).2 hadm
      have hrec := ih o (k + 1) (deductCredits s a (o k).1 (o k).2).state hadm'
      simp only [runDeductions, successSum]
      rcases hrec with ⟨hsum, hpos⟩
      by_cases hlt : s.balanceRef < a
      · constructor
        · rw [hret, hsum, hbal]
          simp [hlt]
        · intro h0
          apply hpos
          rw [hbal]; simp [hlt]; omega
      · constructor
        · rw [hret, hsum, hbal]
          simp [hlt]
          ring
        · intro h0
          apply hpos
          rw [hbal]; simp [hlt]; omega

/-! Claim theorems. -/

/-- C1: No-overspend atomicity of check-and-deduct.  For every back-to-back
sequence of `deductCredits` calls by a non-admin caller (with arbitrary
session/RPC outcomes, none of which influence the synchronous decision), the
sum of the amounts of the calls that return true never exceeds the
non-negative balance observed at the start; and from balance 38 the calls
`deductCredits 38; deductCredits 38` return true then false and leave the
balance at 0. -/
theorem C1_no_overspend_atomicity (amounts : List Int)
    (o : Nat → Bool × RpcOutcome) (s : CreditState)
    (hadm : s.isAdmin = false) (h0 : 0 ≤ s.balanceRef) :
    successSum amounts (runDeductions o 0 s amounts).1 ≤ s.balanceRef ∧
    (runDeductions o 0 ⟨false, 38⟩ [38, 38]).1 = [true, false] ∧
    (runDeductions o 0 ⟨false, 38⟩ [38, 38]).2.balanceRef = 0 := by
  have hscen : (runDeductions o 0 ⟨false, 38⟩ [38, 38]).1 = [true, false] ∧
      (runDeductions o 0 ⟨false, 38⟩ [38, 38]).2.balanceRef = 0 := by
    rcases h00 : o 0 with ⟨b0, r0⟩
    rcases h01 : o 1 with ⟨b1, r1⟩
    simp only [runDeductions, h00, h01]
    cases b0 <;> cases b1 <;> cases r0 <;> cases r1 <;> decide
  refine ⟨?_, hscen.1, hscen.2⟩
  obtain ⟨hsum, hpos⟩ := runDeductions_invariant amounts o 0 s hadm
  have := hpos h0
  omega

/-- C1 witness: a concrete instantiation (start balance 38, amounts 20 and
30, constant oracle). -/
theorem C1_no_overspend_atomicity_witness :
    successSum [20, 30]
      (runDeductions (fun _ => (true, RpcOutcome.resolvedOk)) 0 ⟨false, 38⟩ [20, 30]).1 ≤ 38 ∧
    (runDeductions (fun _ => (true, RpcOutcome.resolvedOk)) 0 ⟨false, 38⟩ [38, 38]).1 = [true, false] := by
  have h := C1_no_overspend_atomicity [20, 30]
    (fun _ => (true, RpcOutcome.resolvedOk)) ⟨false, 38⟩ rfl (by decide)
  exact ⟨h.1, h.2.1⟩

/-- C8: Ledger sync failure handling.  For every successful local deduction
with a live session: whatever the RPC outcome, the call returns true and the
local decrement stands; and when the primary RPC resolves with an error, the
fallback direct overwrite is attempted with exactly the already-locally-
computed value `balanceRef - amount`. -/
theorem C8_sync_failure_handling (s : CreditState) (amount : Int)
    (hadm : s.isAdmin = false) (haff : amount ≤ s.balanceRef) :
    ∀ rpc : RpcOutcome,
      (deductCredits s amount true rpc).ret = true ∧
      (deductCredits s amount true rpc).state.balanceRef = s.balanceRef - amount ∧
      (rpc = RpcOutcome.errorResult →
        (deductCredits s amount true rpc).fallbackWrite = some (s.balanceRef - amount)) := by
  intro rpc
  have hnl : ¬ s.balanceRef < amount := not_lt.mpr haff
  cases rpc <;> simp [deductCredits, hadm, hnl]

/-- C8 witness: balance 10, amount 4, RPC error result. -/
theorem C8_sync_failure_handling_witness :
    (deductCredits ⟨false, 10⟩ 4 true RpcOutcome.errorResult).ret = true ∧
    (deductCredits ⟨false, 10⟩ 4 true RpcOutcome.errorResult).state.balanceRef = 6 ∧
    (deductCredits ⟨false, 10⟩ 4 true RpcOutcome.errorResult).fallbackWrite = some 6 := by
  have h := C8_sync_failure_handling ⟨false, 10⟩ 4 rfl (by decide)
    RpcOutcome.errorResult
  exact ⟨h.1, h.2.1, h.2.2 rfl⟩

/-- C9: no lower bound on the deduction amount.  For every negative amount n
and non-negative balances, the local `deductCredits` affordability check
passes, the call returns true and the balance increases by |n|; the SQL
`deduct_credits` likewise returns true and increases the row by |n|. -/
theorem C9_negative_amount_no_guard (n b c : Int) (hn : n < 0) (hb : 0 ≤ b)
    (hc : 0 ≤ c) :
    ∀ (hs : Bool) (rpc : RpcOutcome),
      (deductCredits ⟨false, b⟩ n hs rpc).ret = true ∧
      (deductCredits ⟨false, b⟩ n hs rpc).state.balanceRef = b + |n| ∧
      (deduct_credits c n).1 = true ∧
      (deduct_credits c n).2 = c + |n| := by
  intro hs rpc
  have habs : |n| = -n := abs_of_neg hn
  have hbl : ¬ b < n := by omega
  have hcl : c ≥ n := by omega
  cases hs <;> cases rpc <;>
    simp [deductCredits, deduct_credits, hbl, hcl, habs] <;>
    exact ⟨by ring, by ring⟩

/-- C9 witness: amount -7 against local balance 10 and remote credits 3. -/
theorem C9_negative_amount_no_guard_witness :
    (deductCredits ⟨false, 10⟩ (-7) true RpcOutcome.resolvedOk).ret = true ∧
    (deductCredits ⟨false, 10⟩ (-7) true RpcOutcome.resolvedOk).state.balanceRef = 17 ∧
    (deduct_credits 3 (-7)).1 = true ∧
    (deduct_credits 3 (-7)).2 = 10 := by
  have h := C9_negative_amount_no_guard (-7) 10 3 (by decide) (by decide)
    (by decide) true RpcOutcome.resolvedOk
  refine ⟨h.1, ?_, h.2.2.1, ?_⟩
  · have := h.2.1; simpa using this
  · have := h.2.2.2; simpa using this

/-- C10: auto-topup on session initialization.  In the `fetchProfile` path of
`src/context/AppContext.tsx`, a fetched credit count below 5 initializes the
local balance to 50 and issues a remote overwrite to 50 (so the local balance
exceeds the fetched value), and every fetched value of at least 5 initializes
the local balance to exactly the fetched value with no overwrite. -/
theorem C10_auto_topup (c : Int) :
    (c < 5 → fetchProfile c = (50, some 50) ∧ c < (fetchProfile c).1) ∧
    (5 ≤ c → fetchProfile c = (c, none)) := by
  constructor
  · intro h
    constructor
    · simp [fetchProfile, h]
    · simp [fetchProfile, h]; omega
  · intro h
    simp [fetchProfile, not_lt.mpr h]

/-- C10 witness: fetched values 3 and 7. -/
theorem C10_auto_topup_witness :
    fetchProfile 3 = (50, some 50) ∧ (3 : Int) < (fetchProfile 3).1 ∧
    fetchProfile 7 = (7, none) := by
  refine ⟨((C10_auto_topup 3).1 (by decide)).1,
    ((C10_auto_topup 3).1 (by decide)).2,
    (C10_auto_topup 7).2 (by decide)⟩

-- Helper lemmas about keyed lists and the poller sweep.

theorem keys_nodup_value_eq {α : Type} {l : List (Nat × α)}
    (h : (l.map Prod.fst).Nodup) {k : Nat} {v v' : α}
    (h1 : (k, v) ∈ l) (h2 : (k, v') ∈ l) : v = v' := by
  induction l with
  | nil => cases h1
  | cons hd tl ih =>
      simp only [List.map_cons, List.nodup_cons] at h
      obtain ⟨hne, hnd⟩ := h
      rcases List.mem_cons.mp h1 with h1 | h1 <;>
        rcases List.mem_cons.mp h2 with h2 | h2
      · exact congrArg Prod.snd (h1.trans h2.symm)
      · exfalso
        apply hne
        have hk : hd.1 = k := by rw [← h1]
        rw [hk]
        exact List.mem_map.mpr ⟨(k, v'), h2, rfl⟩
      · exfalso
        apply hne
        have hk : hd.1 = k := by rw [← h2]
        rw [hk]
        exact List.mem_map.mpr ⟨(k, v), h1, rfl⟩
      · exact ih hnd h1 h2

theorem pollJobs_status_mem (now : Nat) (jobs : List (Nat × JobInfo))
    (remote : String → Option RemoteResponse) (scene : Nat) (job : JobInfo)
    (st : RenderStatus) (hmem : (scene, job) ∈ jobs)
    (hst : (pollJobStep now job (remote job.id)).newStatus = some st) :
    (scene, st) ∈ (pollJobs now jobs remote).2.1 := by
  unfold pollJobs
  exact List.mem_filterMap.mpr ⟨(scene, job), hmem, by simp [hst]⟩

theorem pollJobs_removed_not_mem (now : Nat) (jobs : List (Nat × JobInfo))
    (remote : String → Option RemoteResponse) (scene : Nat) (job : JobInfo)
    (hmem : (scene, job) ∈ jobs) (hnodup : (jobs.map Prod.fst).Nodup)
    (hrem : (pollJobStep now job (remote job.id)).removed = true) :
    scene ∉ ((pollJobs now jobs remote).1.map Prod.fst) := by
  intro hcon
  simp only [pollJobs] at hcon
  obtain ⟨p, hp, hfst⟩ := List.mem_map.mp hcon
  obtain ⟨hpin, hpkeep⟩ := List.mem_filter.mp hp
  rcases p with ⟨k, j'⟩
  simp only at hfst
  subst hfst
  have hje : j' = job := keys_nodup_value_eq hnodup hpin hmem
  subst hje
  simp [hrem] at hpkeep

theorem pollJobs_status_functional (now : Nat) (jobs : List (Nat × JobInfo))
    (remote : String → Option RemoteResponse) (scene : Nat) (job : JobInfo)
    (st st' : RenderStatus) (hmem : (scene, job) ∈ jobs)
    (hnodup : (jobs.map Prod.fst).Nodup)
    (hst : (pollJobStep now job (remote job.id)).newStatus = some st)
    (hne : st' ≠ st) :
    (scene, st') ∉ (pollJobs now jobs remote).2.1 := by
  intro hcon
  simp only [pollJobs] at hcon
  obtain ⟨⟨k, j'⟩, hpin, hmap⟩ := List.mem_filterMap.mp hcon
  rcases hopt : (pollJobStep now j' (remote j'.id)).newStatus with _ | st''
  · rw [hopt] at hmap; cases hmap
  · rw [hopt] at hmap
    simp only [Option.map, Option.some.injEq, Prod.mk.injEq] at hmap
    obtain ⟨hk, hst''⟩ := hmap
    subst hk
    have hje : j' = job := keys_nodup_value_eq hnodup hpin hmem
    subst hje
    rw [hst] at hopt
    cases hopt
    exact hne hst''.symm

/-- C3: Timeout dominance.  In the `pollJobs` sweep, every outstanding job
whose registration time is more than the 10-minute hard ceiling before the
sweep time is resolved to the local `timed_out` terminal state and removed
from the outstanding set, for every possible remote status oracle. -/
theorem C3_timeout_dominance (now : Nat) (jobs : List (Nat × JobInfo))
    (remote : String → Option RemoteResponse) (scene : Nat) (job : JobInfo)
    (hmem : (scene, job) ∈ jobs) (hnodup : (jobs.map Prod.fst).Nodup)
    (htime : job.startTime + HARD_TIMEOUT_MS < now) :
    (scene, RenderStatus.timed_out) ∈ (pollJobs now jobs remote).2.1 ∧
    scene ∉ ((pollJobs now jobs remote).1.map Prod.fst) := by
  have hstep : pollJobStep now job (remote job.id) =
      ⟨true, some RenderStatus.timed_out, none⟩ := by
    unfold pollJobStep
    have hgt : now - job.startTime > HARD_TIMEOUT_MS := by omega
    simp [hgt]
  constructor
  · exact pollJobs_status_mem now jobs remote scene job RenderStatus.timed_out
      hmem (by rw [hstep])
  · exact pollJobs_removed_not_mem now jobs remote scene job hmem hnodup
      (by rw [hstep])

/-- C3 witness: a single job registered at time 0 polled at 11 minutes, with
a remote oracle still reporting `processing`. -/
theorem C3_timeout_dominance_witness :
    (5, RenderStatus.timed_out) ∈
      (pollJobs 660000 [(5, ⟨"job-a", 0⟩)]
        (fun _ => some ⟨RemoteState.processing, none, none⟩)).2.1 ∧
    5 ∉ ((pollJobs 660000 [(5, ⟨"job-a", 0⟩)]
        (fun _ => some ⟨RemoteState.processing, none, none⟩)).1.map Prod.fst) := by
  exact C3_timeout_dominance 660000 [(5, ⟨"job-a", 0⟩)]
    (fun _ => some ⟨RemoteState.processing, none, none⟩) 5 ⟨"job-a", 0⟩
    (by simp) (by simp) (by norm_num [HARD_TIMEOUT_MS])

/-- C4: Missing-output-is-failure.  A non-timed-out outstanding job whose
remote status query returns `succeeded` with an absent output payload is
resolved by the sweep to the local `failed` state and removed from the
outstanding set, and is never given the local `done` state. -/
theorem C4_missing_output_is_failure (now : Nat) (jobs : List (Nat × JobInfo))
    (remote : String → Option RemoteResponse) (scene : Nat) (job : JobInfo)
    (res : RemoteResponse) (hmem : (scene, job) ∈ jobs)
    (hnodup : (jobs.map Prod.fst).Nodup)
    (hnt : now - job.startTime ≤ HARD_TIMEOUT_MS)
    (hres : remote job.id = some res)
    (hst : res.status = RemoteState.succeeded) (hout : res.output = none) :
    (scene, RenderStatus.failed) ∈ (pollJobs now jobs remote).2.1 ∧
    (scene, RenderStatus.done) ∉ (pollJobs now jobs remote).2.1 ∧
    scene ∉ ((pollJobs now jobs remote).1.map Prod.fst) := by
  have hstep : pollJobStep now job (remote job.id) =
      ⟨true, some RenderStatus.failed, none⟩ := by
    unfold pollJobStep
    have hgt : ¬ now - job.startTime > HARD_TIMEOUT_MS := by omega
    simp [hgt, hres, hst, hout]
  refine ⟨?_, ?_, ?_⟩
  · exact pollJobs_status_mem now jobs remote scene job RenderStatus.failed
      hmem (by rw [hstep])
  · exact pollJobs_status_functional now jobs remote scene job
      RenderStatus.failed RenderStatus.done hmem hnodup (by rw [hstep])
      (by decide)
  · exact pollJobs_removed_not_mem now jobs remote scene job hmem hnodup
      (by rw [hstep])

/-- C4 witness: a fresh job whose remote answer is `succeeded` with no
output. -/
theorem C4_missing_output_is_failure_witness :
    (7, RenderStatus.failed) ∈
      (pollJobs 1000 [(7, ⟨"job-b", 0⟩)]
        (fun _ => some ⟨RemoteState.succeeded, none, none⟩)).2.1 ∧
    (7, RenderStatus.done) ∉
      (pollJobs 1000 [(7, ⟨"job-b", 0⟩)]
        (fun _ => some ⟨RemoteState.succeeded, none, none⟩)).2.1 := by
  have h := C4_missing_output_is_failure 1000 [(7, ⟨"job-b", 0⟩)]
    (fun _ => some ⟨RemoteState.succeeded, none, none⟩) 7 ⟨"job-b", 0⟩
    ⟨RemoteState.succeeded, none, none⟩ (by simp) (by simp)
    (by norm_num [HARD_TIMEOUT_MS]) rfl rfl rfl
  exact ⟨h.1, h.2.1⟩

/-- C5 counterexample: the claim that a remote `canceled` answer is mapped to
a local canceled terminal state and removed from the outstanding set is false
at this input: a non-timed-out job whose remote status is `canceled` is kept
in the outstanding set with local status `processing` by the `pollJobs`
sweep. -/
theorem C5_canceled_counterexample :
    (pollJobs 1000 [(5, ⟨"job-c", 0⟩)]
      (fun _ => some ⟨RemoteState.canceled, none, none⟩)).1 = [(5, ⟨"job-c", 0⟩)] ∧
    (pollJobs 1000 [(5, ⟨"job-c", 0⟩)]
      (fun _ => some ⟨RemoteState.canceled, none, none⟩)).2.1 =
      [(5, RenderStatus.processing)] := by
  constructor <;> rfl

/-- C5 (amended): in the `pollJobs` sweep, only remote `failed` is mapped
1:1; a non-timed-out outstanding job whose remote status query returns
`canceled` is kept in the outstanding set and its scene is given the local
still-processing status. -/
theorem C5_canceled_kept_processing (now : Nat) (jobs : List (Nat × JobInfo))
    (remote : String → Option RemoteResponse) (scene : Nat) (job : JobInfo)
    (res : RemoteResponse) (hmem : (scene, job) ∈ jobs)
    (hnt : now - job.startTime ≤ HARD_TIMEOUT_MS)
    (hres : remote job.id = some res)
    (hst : res.status = RemoteState.canceled) :
    (scene, job) ∈ (pollJobs now jobs remote).1 ∧
    (scene, RenderStatus.processing) ∈ (pollJobs now jobs remote).2.1 := by
  have hstep : pollJobStep now job (remote job.id) =
      ⟨false, some RenderStatus.processing, none⟩ := by
    unfold pollJobStep
    have hgt : ¬ now - job.startTime > HARD_TIMEOUT_MS := by omega
    simp [hgt, hres, hst]
  constructor
  · simp only [pollJobs]
    exact List.mem_filter.mpr ⟨hmem, by simp [hstep]⟩
  · exact pollJobs_status_mem now jobs remote scene job RenderStatus.processing
      hmem (by rw [hstep])

/-- C5 (amended) witness: the concrete canceled job of the counterexample. -/
theorem C5_canceled_kept_processing_witness :
    (5, (⟨"job-c", 0⟩ : JobInfo)) ∈
      (pollJobs 1000 [(5, ⟨"job-c", 0⟩)]
        (fun _ => some ⟨RemoteState.canceled, none, none⟩)).1 ∧
    (5, RenderStatus.processing) ∈
      (pollJobs 1000 [(5, ⟨"job-c", 0⟩)]
        (fun _ => some ⟨RemoteState.canceled, none, none⟩)).2.1 := by
  exact C5_canceled_kept_processing 1000 [(5, ⟨"job-c", 0⟩)]
    (fun _ => some ⟨RemoteState.canceled, none, none⟩) 5 ⟨"job-c", 0⟩
    ⟨RemoteState.canceled, none, none⟩ (by simp)
    (by norm_num [HARD_TIMEOUT_MS]) rfl rfl

-- Helper lemmas about setEntry and applyDeductLocal.

theorem lookup_setEntry_self {α : Type} (l : List (Nat × α)) (k : Nat) (v : α) :
    List.lookup k (setEntry l k v) = some v := by
  induction l with
  | nil => simp [setEntry, List.lookup]
  | cons hd tl ih =>
      rcases hd with ⟨k', v'⟩
      by_cases hk : k' = k
      · subst hk
        simp [setEntry, List.lookup]
      · have hkk : (k == k') = false := by
          simp only [beq_eq_false_iff_ne, ne_eq]
          exact fun h => hk h.symm
        simp [setEntry, hk, List.lookup, hkk, ih]

theorem setEntry_map_fst {α : Type} (l : List (Nat × α)) (k : Nat) (v : α) :
    (setEntry l k v).map Prod.fst =
      if k ∈ l.map Prod.fst then l.map Prod.fst else l.map Prod.fst ++ [k] := by
  induction l with
  | nil => simp [setEntry]
  | cons hd tl ih =>
      rcases hd with ⟨k', v'⟩
      by_cases hk : k' = k
      · subst hk
        simp [setEntry]
      · simp only [setEntry, if_neg hk, List.map_cons, ih]
        by_cases hmem : k ∈ tl.map Prod.fst
        · rw [if_pos hmem, if_pos (List.mem_cons.mpr (Or.inr hmem))]
        · rw [if_neg hmem, if_neg ?_]
          · simp
          · intro hcon
            rcases List.mem_cons.mp hcon with h | h
            · exact hk h.symm
            · exact hmem h

theorem setEntry_keys_nodup {α : Type} (l : List (Nat × α)) (k : Nat) (v : α)
    (h : (l.map Prod.fst).Nodup) : ((setEntry l k v).map Prod.fst).Nodup := by
  rw [setEntry_map_fst]
  by_cases hmem : k ∈ l.map Prod.fst
  · rw [if_pos hmem]; exact h
  · rw [if_neg hmem]
    exact List.Nodup.append h (List.nodup_singleton k)
      (List.disjoint_singleton.mpr hmem)

theorem applyDeductLocal_fields (s : OrchState) (a : Int) :
    (applyDeductLocal s a).videoTaskCalls = s.videoTaskCalls ∧
    (applyDeductLocal s a).activeVideoJobs = s.activeVideoJobs ∧
    (applyDeductLocal s a).sceneImages = s.sceneImages ∧
    (applyDeductLocal s a).sceneStatus = s.sceneStatus ∧
    (applyDeductLocal s a).pricingOpened = s.pricingOpened ∧
    (applyDeductLocal s a).genCalls = s.genCalls ∧
    (applyDeductLocal s a).deductions = s.deductions ++ [a] ∧
    (applyDeductLocal s a).isAdmin = s.isAdmin := by
  simp only [applyDeductLocal]
  split
  · simp
  · split
    · simp
    · simp

-- Evaluation lemmas for the video submission handlers, with the cost kept
-- symbolic (kernel reduction of rational arithmetic is not available).

theorem handleGenerateSingleVideo_submits (costs : VideoModel → Option Int)
    (mults : VideoModel → Option Rat) (m : VideoModel) (id : String)
    (now : Nat) (scenes : List Nat) (s : OrchState) (sNum : Nat) (u : String)
    (hmem : sNum ∈ scenes) (himg : List.lookup sNum s.sceneImages = some u)
    (haff : ¬ (s.isAdmin = false ∧ s.staleBalance < videoCost costs mults m)) :
    handleGenerateSingleVideo costs mults m (some id) now scenes s sNum =
      (let s1 : OrchState :=
        { s with sceneStatus := setEntry s.sceneStatus sNum "queued",
                 videoTaskCalls := s.videoTaskCalls ++ [sNum] }
      let s2 := applyDeductLocal s1 (videoCost costs mults m)
      { s2 with activeVideoJobs := setEntry s2.activeVideoJobs sNum ⟨id, now⟩,
                sceneStatus := setEntry s2.sceneStatus sNum "starting" }) := by
  unfold handleGenerateSingleVideo
  rw [if_pos hmem, himg]
  dsimp only
  rw [if_neg haff]

theorem handleGenerateSingleVideo_pricing (costs : VideoModel → Option Int)
    (mults : VideoModel → Option Rat) (m : VideoModel) (task : Option String)
    (now : Nat) (scenes : List Nat) (s : OrchState) (sNum : Nat) (u : String)
    (hmem : sNum ∈ scenes) (himg : List.lookup sNum s.sceneImages = some u)
    (hins : s.isAdmin = false ∧ s.staleBalance < videoCost costs mults m) :
    handleGenerateSingleVideo costs mults m task now scenes s sNum =
      { s with pricingOpened := true } := by
  unfold handleGenerateSingleVideo
  rw [if_pos hmem, himg]
  dsimp only
  rw [if_pos hins]

theorem submitVideoPhase_submits (costs : VideoModel → Option Int)
    (mults : VideoModel → Option Rat) (m : VideoModel) (id : String)
    (now : Nat) (sNum : Nat) (s : OrchState)
    (haff : ¬ (s.isAdmin = false ∧ s.currentBalance < videoCost costs mults m)) :
    submitVideoPhase costs mults m (some id) now sNum s =
      (let s1 : OrchState :=
        { s with videoTaskCalls := s.videoTaskCalls ++ [sNum] }
      let s2 := applyDeductLocal s1 (videoCost costs mults m)
      ({ s2 with currentBalance := s2.currentBalance - videoCost costs mults m,
                 activeVideoJobs := setEntry s2.activeVideoJobs sNum ⟨id, now⟩,
                 sceneStatus := setEntry s2.sceneStatus sNum "starting" }, false)) := by
  unfold submitVideoPhase
  rw [if_neg haff]

theorem submitVideoPhase_pricing (costs : VideoModel → Option Int)
    (mults : VideoModel → Option Rat) (m : VideoModel) (task : Option String)
    (now : Nat) (sNum : Nat) (s : OrchState)
    (hins : s.isAdmin = false ∧ s.currentBalance < videoCost costs mults m) :
    submitVideoPhase costs mults m task now sNum s =
      ({ s with pricingOpened := true }, true) := by
  unfold submitVideoPhase
  rw [if_pos hins]

theorem videoCost_wan_unit :
    videoCost (fun mm => some (MODEL_COSTS mm)) (fun _ => some 1)
      VideoModel.wan_2_5 = 38 := by
  norm_num [videoCost, jsOrInt, jsOrRat, MODEL_COSTS]

/-- C2 counterexample: the claim that `renderSingleVideo` submits no second
external request for a scene with an outstanding job is false at this input:
scene 5 of `dupJobState` has an outstanding job, yet
`handleGenerateSingleVideo` invokes `startVideoTask` for it and replaces its
registry entry with the new job. -/
theorem C2_duplicate_submission_counterexample :
    (handleGenerateSingleVideo (fun mm => some (MODEL_COSTS mm))
      (fun _ => some 1) VideoModel.wan_2_5 (some "new-id") 99 [5]
      dupJobState 5).videoTaskCalls = [5] ∧
    (handleGenerateSingleVideo (fun mm => some (MODEL_COSTS mm))
      (fun _ => some 1) VideoModel.wan_2_5 (some "new-id") 99 [5]
      dupJobState 5).activeVideoJobs = [(5, ⟨"new-id", 99⟩)] := by
  rw [handleGenerateSingleVideo_submits (fun mm => some (MODEL_COSTS mm))
    (fun _ => some 1) VideoModel.wan_2_5 "new-id" 99 [5] dupJobState 5 "img-5"
    (by decide) (by decide) (by rw [videoCost_wan_unit]; decide)]
  constructor
  · have h := applyDeductLocal_fields
      { dupJobState with
          sceneStatus := setEntry dupJobState.sceneStatus 5 "queued",
          videoTaskCalls := dupJobState.videoTaskCalls ++ [5] }
      (videoCost (fun mm => some (MODEL_COSTS mm)) (fun _ => some 1)
        VideoModel.wan_2_5)
    simp only [h.1]
    decide
  · have h := applyDeductLocal_fields
      { dupJobState with
          sceneStatus := setEntry dupJobState.sceneStatus 5 "queued",
          videoTaskCalls := dupJobState.videoTaskCalls ++ [5] }
      (videoCost (fun mm => some (MODEL_COSTS mm)) (fun _ => some 1)
        VideoModel.wan_2_5)
    simp only [h.2.1]
    decide

/-- C2 (amended): the batch render-all-videos loop skips a scene with an
outstanding job untouched (no second submission, no second registration), and
the registry, being keyed by scene, never gains a duplicate key; but
`handleGenerateSingleVideo` performs no duplicate-submission check: whenever
its own guards pass (scene exists, image present, affordable) it invokes
`startVideoTask` and overwrites the scene's registry entry, outstanding job
or not. -/
theorem C2_duplicate_submission_guard (costs : VideoModel → Option Int)
    (mults : VideoModel → Option Rat) (m : VideoModel) :
    (∀ (imgCost : Int) (gen task : Nat → Option String) (now : Nat)
        (s : OrchState) (sNum : Nat),
      (List.lookup sNum s.activeVideoJobs).isSome = true →
      renderVideosStep imgCost costs mults m gen task now s sNum = (s, false)) ∧
    (∀ (id : String) (now : Nat) (scenes : List Nat) (s : OrchState)
        (sNum : Nat) (u : String), sNum ∈ scenes →
      List.lookup sNum s.sceneImages = some u →
      ¬ (s.isAdmin = false ∧ s.staleBalance < videoCost costs mults m) →
      (handleGenerateSingleVideo costs mults m (some id) now scenes s sNum).videoTaskCalls =
        s.videoTaskCalls ++ [sNum] ∧
      List.lookup sNum
        (handleGenerateSingleVideo costs mults m (some id) now scenes s sNum).activeVideoJobs =
        some ⟨id, now⟩) ∧
    (∀ (l : List (Nat × JobInfo)) (k : Nat) (v : JobInfo),
      (l.map Prod.fst).Nodup → ((setEntry l k v).map Prod.fst).Nodup) := by
  refine ⟨?_, ?_, ?_⟩
  · intro imgCost gen task now s sNum h
    unfold renderVideosStep
    rw [if_pos (Or.inl h)]
  · intro id now scenes s sNum u hmem himg haff
    constructor
    · rw [handleGenerateSingleVideo_submits costs mults m id now scenes s sNum
        u hmem himg haff]
      simp only [(applyDeductLocal_fields _ _).1]
    · rw [handleGenerateSingleVideo_submits costs mults m id now scenes s sNum
        u hmem himg haff]
      exact lookup_setEntry_self _ _ _
  · intro l k v h
    exact setEntry_keys_nodup l k v h

/-- C2 (amended) witness: the batch step skips scene 5 of `dupJobState`; the
single-video handler on a job-free variant submits and registers; setEntry on
a one-key registry keeps its keys duplicate-free. -/
theorem C2_duplicate_submission_guard_witness :
    renderVideosStep 6 (fun mm => some (MODEL_COSTS mm)) (fun _ => some 1)
      VideoModel.wan_2_5 (fun _ => none) (fun _ => none) 7 dupJobState 5 =
      (dupJobState, false) ∧
    List.lookup 5 (handleGenerateSingleVideo (fun mm => some (MODEL_COSTS mm))
      (fun _ => some 1) VideoModel.wan_2_5 (some "job-z") 7 [5]
      dupJobState 5).activeVideoJobs = some ⟨"job-z", 7⟩ ∧
    ((setEntry [(5, (⟨"old-id", 0⟩ : JobInfo))] 5 ⟨"job-z", 7⟩).map Prod.fst).Nodup := by
  have h := C2_duplicate_submission_guard (fun mm => some (MODEL_COSTS mm))
    (fun _ => some 1) VideoModel.wan_2_5
  refine ⟨h.1 6 (fun _ => none) (fun _ => none) 7 dupJobState 5 (by decide),
    (h.2.1 "job-z" 7 [5] dupJobState 5 "img-5" (by decide) (by decide)
      (by rw [videoCost_wan_unit]; decide)).2,
    h.2.2 [(5, ⟨"old-id", 0⟩)] 5 ⟨"job-z", 7⟩ (by decide)⟩

/-- C6: video cost formula.  The amount checked for affordability and the
amount deducted by both the batch video submission phase and the single-scene
handler equal `ceil(base_model_cost * priority_multiplier)`, where the base
cost is the model's (truthy) entry in the cost table and the multiplier the
model's (truthy) entry in the multiplier table. -/
theorem C6_video_cost_formula (costs : VideoModel → Option Int)
    (mults : VideoModel → Option Rat) (m : VideoModel) (base : Int)
    (mult : Rat) (hbase : costs m = some base) (hb0 : base ≠ 0)
    (hmult : mults m = some mult) (hm0 : mult ≠ 0) :
    videoCost costs mults m = Int.ceil ((base : Rat) * mult) ∧
    (∀ (id : String) (now : Nat) (scenes : List Nat) (s : OrchState)
        (sNum : Nat) (u : String), sNum ∈ scenes →
      List.lookup sNum s.sceneImages = some u →
      ¬ (s.isAdmin = false ∧ s.staleBalance < videoCost costs mults m) →
      (handleGenerateSingleVideo costs mults m (some id) now scenes s sNum).deductions =
        s.deductions ++ [Int.ceil ((base : Rat) * mult)]) ∧
    (∀ (task : Option String) (now : Nat) (scenes : List Nat) (s : OrchState)
        (sNum : Nat) (u : String), sNum ∈ scenes →
      List.lookup sNum s.sceneImages = some u →
      s.isAdmin = false → s.staleBalance < Int.ceil ((base : Rat) * mult) →
      handleGenerateSingleVideo costs mults m task now scenes s sNum =
        { s with pricingOpened := true }) ∧
    (∀ (id : String) (now : Nat) (sNum : Nat) (s : OrchState),
      ¬ (s.isAdmin = false ∧ s.currentBalance < videoCost costs mults m) →
      (submitVideoPhase costs mults m (some id) now sNum s).1.deductions =
        s.deductions ++ [Int.ceil ((base : Rat) * mult)]) ∧
    (∀ (task : Option String) (now : Nat) (sNum : Nat) (s : OrchState),
      s.isAdmin = false → s.currentBalance < Int.ceil ((base : Rat) * mult) →
      submitVideoPhase costs mults m task now sNum s =
        ({ s with pricingOpened := true }, true)) := by
  have hcost : videoCost costs mults m = Int.ceil ((base : Rat) * mult) := by
    unfold videoCost jsOrInt jsOrRat
    rw [hbase, hmult]
    dsimp only
    rw [if_neg hb0, if_neg hm0]
  refine ⟨hcost, ?_, ?_, ?_, ?_⟩
  · intro id now scenes s sNum u hmem himg haff
    rw [handleGenerateSingleVideo_submits costs mults m id now scenes s sNum
      u hmem himg haff]
    simp only [(applyDeductLocal_fields _ _).2.2.2.2.2.2.1, hcost]
  · intro task now scenes s sNum u hmem himg hadm hlt
    exact handleGenerateSingleVideo_pricing costs mults m task now scenes s
      sNum u hmem himg ⟨hadm, by rw [hcost]; exact hlt⟩
  · intro id now sNum s haff
    rw [submitVideoPhase_submits costs mults m id now sNum s haff]
    simp only [(applyDeductLocal_fields _ _).2.2.2.2.2.2.1, hcost]
  · intro task now sNum s hadm hlt
    exact submitVideoPhase_pricing costs mults m task now sNum s
      ⟨hadm, by rw [hcost]; exact hlt⟩

/-- C6 witness: the `wan_2_5` base cost 38 with multiplier 3/2 prices a
submission at ceil(57) = 57, and the single-scene handler deducts exactly
that amount. -/
theorem C6_video_cost_formula_witness :
    videoCost (fun mm => some (MODEL_COSTS mm)) (fun _ => some (3 / 2))
      VideoModel.wan_2_5 = 57 ∧
    (handleGenerateSingleVideo (fun mm => some (MODEL_COSTS mm))
      (fun _ => some (3 / 2)) VideoModel.wan_2_5 (some "vid-1") 42 [1]
      singleVideoState 1).deductions = [57] := by
  have h := C6_video_cost_formula (fun mm => some (MODEL_COSTS mm))
    (fun _ => some (3 / 2)) VideoModel.wan_2_5 38 (3 / 2) rfl (by norm_num)
    rfl (by norm_num)
  have hc : Int.ceil (((38 : Int) : Rat) * (3 / 2)) = 57 := by norm_num
  constructor
  · rw [h.1, hc]
  · have h2 := h.2.1 "vid-1" 42 [1] singleVideoState 1 "img-1" (by decide)
      (by decide) (by simp only [singleVideoState]; rw [h.1, hc]; norm_num)
    rw [h2, hc]
    simp [singleVideoState]

/-- C7 counterexample: the claim that, with 3 scenes at image cost 6 and
balance 10, the render-all-images batch still attempts scene 3 after scene 2
fails the affordability check is false: the run generates only scene 1 and
scene 3 is never attempted (the loop breaks at scene 2). -/
theorem C7_progress_counterexample :
    (3 : Nat) ∉
      (handleRenderImages 6 (fun _ => some "u") [1, 2, 3] lowBalanceState).genCalls ∧
    (handleRenderImages 6 (fun _ => some "u") [1, 2, 3] lowBalanceState).genCalls
      = [1] := by
  constructor <;> decide

/-- C7 (amended): with 3 scenes at image cost 6 and balance 10,
`handleRenderImages` completes scene 1 (balance becomes 4), fails the
affordability check for scene 2, emits the upgrade signal and stops the
batch, so scene 3 is not attempted; the final count of successfully generated
images is still 1 of 3, not zero. -/
theorem C7_batch_stops_after_scene_one :
    (handleRenderImages 6 (fun _ => some "u") [1, 2, 3] lowBalanceState).sceneImages
      = [(1, "u")] ∧
    (handleRenderImages 6 (fun _ => some "u") [1, 2, 3] lowBalanceState).balanceRef
      = 4 ∧
    (handleRenderImages 6 (fun _ => some "u") [1, 2, 3] lowBalanceState).pricingOpened
      = true ∧
    (handleRenderImages 6 (fun _ => some "u") [1, 2, 3] lowBalanceState).genCalls
      = [1] ∧
    (handleRenderImages 6 (fun _ => some "u") [1, 2, 3] lowBalanceState).deductions
      = [6] := by
  refine ⟨?_, ?_, ?_, ?_, ?_⟩ <;> decide
